import Mathlib

/-!
Shallow embedding of the `xkcd-daily` repository (files `scraper.py`,
`update_readme.py`, `what_xkcd.py`) and verification of its specification.

Python strings are modelled as `List Char`; Python `bytes` as `List Nat`.
Network and filesystem effects are modelled by an explicit `World` record of
oracles together with an event trace that records every HTTP GET, every
diagnostic print, and every file write that a run performs.
-/

/-- Python `str`, modelled as a list of characters. -/
abbrev Str := List Char

/-- Python `bytes` (raw image data), modelled as a list of byte values. -/
abbrev Bytes := List Nat

/-- `scraper.py`: `XKCD_BASE_URL = "https://xkcd.com/"`. -/
def XKCD_BASE_URL : Str := "https://xkcd.com/".data

/-- `scraper.py`: `INVALID_FILENAME_CHARS = ['/', '\\', '?', '%', '*', ':', '|', '"', '<', '>', '.']`. -/
def INVALID_FILENAME_CHARS : List Char :=
  ['/', '\\', '?', '%', '*', ':', '|', '\"', '<', '>', '.']

/-- `scraper.py` `sanitize_filename`:
`return ''.join(char for char in filename if char not in INVALID_FILENAME_CHARS)`. -/
def sanitize_filename (filename : Str) : Str :=
  filename.filter (fun char => decide (char ∉ INVALID_FILENAME_CHARS))

/-- Python `s.split(sep)` for a one-character separator `sep`:
splits at every occurrence of `sep`, keeping empty segments, and always
returns at least one segment (`''.split(sep) == ['']`). -/
def pySplit (sep : Char) : Str → List Str
  | [] => [[]]
  | c :: rest =>
    match pySplit sep rest with
    | [] => [[]]
    | hd :: tl => if c = sep then [] :: hd :: tl else (c :: hd) :: tl

/-- `scraper.py` `get_file_extension`: `return url.split('.')[-1]`. -/
def get_file_extension (url : Str) : Str :=
  (pySplit '.' url).getLastD []

/-- A `requests` response: status code, `response.text` and `response.content`. -/
structure Response where
  status : Nat
  text : Str
  content : Bytes
deriving DecidableEq

/-- Outcome of `requests.get(url)`: either a `requests.RequestException` was
raised (connection error and the like) or a response came back. -/
inductive ReqOutcome where
  | raised (e : Str)
  | ok (r : Response)
deriving DecidableEq

/-- The three lookups `extract_comic_data` performs on a parsed page, as a
record: `soup.find(id="comic").find("img")["src"]`, `soup.find(id="ctitle").get_text()`
and `soup.find(id="transcript").get_text()`; a `none` field models the
element/attribute being absent (Python raises `AttributeError`/`KeyError`/
`TypeError`, caught inside `extract_comic_data`). -/
structure Soup where
  comic_img_src : Option Str
  ctitle_text : Option Str
  transcript_text : Option Str
deriving DecidableEq

/-- The external world the scraper runs against: the network (`requests.get`
keyed by URL), the HTML parsing oracle (`BeautifulSoup(text, "html.parser")`),
and which file paths the filesystem will accept a write at. -/
structure World where
  net : Str → ReqOutcome
  parse : Str → Soup
  write_ok : Str → Bool

/-- Content of a written file: binary image bytes or UTF-8 text. -/
inductive FileData where
  | image (b : Bytes)
  | text (s : Str)
deriving DecidableEq

/-- The underlying error named by a diagnostic print: a network-level
`RequestException` message or the status code of an `HTTPError` raised by
`response.raise_for_status()`. -/
inductive FetchErr where
  | netErr (msg : Str)
  | httpErr (status : Nat)
deriving DecidableEq

/-- Observable events of a scraper run: HTTP GETs issued, diagnostic lines
printed (each carrying the URL/path and the underlying error it names), and
files written. -/
inductive Ev where
  | get (url : Str)
  | logFetchFail (url : Str) (e : FetchErr)
  | logDownloadFail (url : Str) (e : FetchErr)
  | logSaveImageFail (path : Str)
  | logSaveTranscriptFail (path : Str)
  | logOk (title : Str)
  | writeFile (path : Str) (data : FileData)
deriving DecidableEq

/-- The file-write events of a trace, as `(path, content)` pairs. -/
def writesOf (evs : List Ev) : List (Str × FileData) :=
  evs.filterMap fun e =>
    match e with
    | .writeFile p d => some (p, d)
    | _ => none

/-- The URLs of the HTTP GET requests issued in a trace. -/
def getsOf (evs : List Ev) : List Str :=
  evs.filterMap fun e =>
    match e with
    | .get u => some u
    | _ => none

/-- `response.raise_for_status()` raises `requests.HTTPError` exactly for
4xx client errors and 5xx server errors (`400 <= status < 600`). -/
def raise_for_status (r : Response) : Bool :=
  decide (400 ≤ r.status ∧ r.status < 600)

/-- `scraper.py` `fetch_webpage`: `requests.get(url)`, `raise_for_status()`,
parse into a soup; any `RequestException` is caught, printed
(`Error fetching {url}: {e}`) and turned into `None`. -/
def fetch_webpage (w : World) (url : Str) : Option Soup × List Ev :=
  match w.net url with
  | .raised e => (none, [.get url, .logFetchFail url (.netErr e)])
  | .ok r =>
    if raise_for_status r then
      (none, [.get url, .logFetchFail url (.httpErr r.status)])
    else
      (some (w.parse r.text), [.get url])

/-- The record returned by a successful `extract_comic_data`:
`{'image_url': ..., 'title': ..., 'transcript': ...}`. -/
structure ComicData where
  image_url : Str
  title : Str
  transcript : Str
deriving DecidableEq

/-- `scraper.py` `extract_comic_data`: looks up the image `src`, the title
text and the transcript text; if any lookup fails the `except` clause
returns `None` — extraction is all-or-nothing. -/
def extract_comic_data (soup : Soup) : Option ComicData :=
  match soup.comic_img_src, soup.ctitle_text, soup.transcript_text with
  | some image_url, some title, some transcript =>
    some ⟨image_url, title, transcript⟩
  | _, _, _ => none

/-- The protocol-relative URL normalization at the top of `download_image`:
`if image_url.startswith("//"): image_url = "https:" + image_url`. -/
def normalize_image_url (image_url : Str) : Str :=
  if image_url.take 2 = ['/', '/'] then "https:".data ++ image_url else image_url

/-- `scraper.py` `download_image`: normalize the URL, `requests.get`,
`raise_for_status`, return `response.content`; failures are printed
(`Error downloading image from {image_url}: {e}`) and become `None`. -/
def download_image (w : World) (image_url : Str) : Option Bytes × List Ev :=
  let u := normalize_image_url image_url
  match w.net u with
  | .raised e => (none, [.get u, .logDownloadFail u (.netErr e)])
  | .ok r =>
    if raise_for_status r then
      (none, [.get u, .logDownloadFail u (.httpErr r.status)])
    else
      (some r.content, [.get u])

/-- `scraper.py` `save_image`: open `filepath` for binary write and write the
bytes; an `IOError` is printed and reported as `False`. -/
def save_image (w : World) (image_data : Bytes) (filepath : Str) : Bool × List Ev :=
  if w.write_ok filepath then
    (true, [.writeFile filepath (.image image_data)])
  else
    (false, [.logSaveImageFail filepath])

/-- `scraper.py` `save_transcript`: open `filepath` for UTF-8 text write and
write the transcript; an `IOError` is printed and reported as `False`. -/
def save_transcript (w : World) (transcript : Str) (filepath : Str) : Bool × List Ev :=
  if w.write_ok filepath then
    (true, [.writeFile filepath (.text transcript)])
  else
    (false, [.logSaveTranscriptFail filepath])

/-- `scraper.py` `get_comic(comic_index)`: build `f"{XKCD_BASE_URL}{comic_index}"`,
then fetch → extract → sanitize title → download image → save image → save
transcript, returning `False` at the first failing step. The second component
is the event trace of the run. -/
def get_comic (w : World) (comic_index : Nat) : Bool × List Ev :=
  match fetch_webpage w (XKCD_BASE_URL ++ (Nat.repr comic_index).data) with
  | (none, evs) => (false, evs)
  | (some soup, evs) =>
    match extract_comic_data soup with
    | none => (false, evs)
    | some comic_data =>
      let sanitized_title := sanitize_filename comic_data.title
      match download_image w comic_data.image_url with
      | (none, evs2) => (false, evs ++ evs2)
      | (some image_data, evs2) =>
        let file_extension := get_file_extension comic_data.image_url
        let image_path := sanitized_title ++ '.' :: file_extension
        match save_image w image_data image_path with
        | (false, evs3) => (false, evs ++ evs2 ++ evs3)
        | (true, evs3) =>
          let transcript_path := sanitized_title ++ "_transcript.txt".data
          match save_transcript w comic_data.transcript transcript_path with
          | (false, evs4) => (false, evs ++ evs2 ++ evs3 ++ evs4)
          | (true, evs4) =>
            (true, evs ++ evs2 ++ evs3 ++ evs4 ++ [.logOk comic_data.title])

/-- `scraper.py` `get_current_comic()`: same pipeline as `get_comic` but
fetches `XKCD_BASE_URL` itself and does not save the transcript (that step is
commented out in the source); only the image file is written. -/
def get_current_comic (w : World) : Bool × List Ev :=
  match fetch_webpage w XKCD_BASE_URL with
  | (none, evs) => (false, evs)
  | (some soup, evs) =>
    match extract_comic_data soup with
    | none => (false, evs)
    | some comic_data =>
      let sanitized_title := sanitize_filename comic_data.title
      match download_image w comic_data.image_url with
      | (none, evs2) => (false, evs ++ evs2)
      | (some image_data, evs2) =>
        let file_extension := get_file_extension comic_data.image_url
        let image_path := sanitized_title ++ '.' :: file_extension
        match save_image w image_data image_path with
        | (false, evs3) => (false, evs ++ evs2 ++ evs3)
        | (true, evs3) =>
          (true, evs ++ evs2 ++ evs3 ++ [.logOk comic_data.title])

/-- Three-way comparison of Python strings: lexicographic by code point,
shorter string first on a tie — the comparison Python's `<`/`sorted` use. -/
def strCmp : Str → Str → Ordering
  | [], [] => .eq
  | [], _ :: _ => .lt
  | _ :: _, [] => .gt
  | a :: as, b :: bs =>
    if a < b then .lt else if b < a then .gt else strCmp as bs

/-- Python string `<=` (lexicographic). -/
def pyLe (a b : Str) : Bool :=
  strCmp a b != Ordering.gt

/-- `update_readme.py` `get_most_recent_comic`, line 19:
`sorted([...], reverse=True)` over the subdirectory names of `data/` — a
stable descending sort under the lexicographic string order. -/
def sorted_date_dirs (subdirs : List Str) : List Str :=
  subdirs.mergeSort (fun a b => pyLe b a)

/-- Python `name.rfind(c)`: the greatest index at which `c` occurs in `name`,
or `-1` if it does not occur. -/
def py_rfind (c : Char) : Str → Int
  | [] => -1
  | a :: rest =>
    let r := py_rfind c rest
    if 0 ≤ r then r + 1
    else if a = c then 0 else -1

/-- CPython `pathlib.PurePath.stem` on a final path component `name`:
`i = name.rfind('.'); return name[:i] if 0 < i < len(name) - 1 else name`. -/
def path_stem (name : Str) : Str :=
  let i := py_rfind '.' name
  if 0 < i ∧ i < (name.length : Int) - 1 then name.take i.toNat else name

/-- `update_readme.py`: `rel_image_path.replace(' ', '%20')`. -/
def percent_escape_spaces (s : Str) : Str :=
  s.flatMap fun c => if c = ' ' then "%20".data else [c]

/-- The on-disk state `update_readme.py` sees, relative to the project root:
whether `data/` exists, the names of its immediate subdirectories, the
base names of the `*.png` glob matches inside each subdirectory, and the
content of `README.md`. -/
structure FS where
  data_dir_present : Bool
  subdirs : List Str
  pngs : Str → List Str
  readme : Str

/-- `update_readme.py` `get_most_recent_comic`: if `data/` is missing return
`None`; sort the subdirectory names descending and take the first; glob
`*.png` inside it, and if none matches return `None`; otherwise return
`(date, Path(image_path).stem, relpath with spaces escaped)`. The glob
result is the path `data/<date>/<name>`; `relpath` from the project root
leaves exactly that relative path, and `stem` acts on the final component
`<name>`. -/
def get_most_recent_comic (fs : FS) : Option (Str × Str × Str) :=
  if fs.data_dir_present = false then none
  else
    match sorted_date_dirs fs.subdirs with
    | [] => none
    | most_recent_date :: _ =>
      match fs.pngs most_recent_date with
      | [] => none
      | png_name :: _ =>
        let image_path := "data/".data ++ most_recent_date ++ '/' :: png_name
        let comic_title := path_stem png_name
        let rel_image_path := percent_escape_spaces image_path
        some (most_recent_date, comic_title, rel_image_path)

/-- The f-string template `update_readme.py` writes into `README.md`. -/
def readme_content (date title image_path : Str) : Str :=
  "# xkcd Daily\n\n#### ".data ++ date ++
  "\n\n## ".data ++ title ++
  "\n\n![".data ++ title ++ "](".data ++ image_path ++
  ")\n\n---\n\n*This README is automatically updated with the latest xkcd comic.*\n".data

/-- `update_readme.py` `update_readme`: if `get_most_recent_comic` found
nothing, print and return without writing; otherwise overwrite `README.md`
with the templated block. The result is the filesystem after the call. -/
def update_readme (fs : FS) : FS :=
  match get_most_recent_comic fs with
  | none => fs
  | some (date, title, image_path) =>
    { fs with readme := readme_content date title image_path }

/-- The module-level names defined in `what_xkcd.py` before the
`if __name__ == '__main__':` block runs: the five imported names
(`import scraper` binds the module under the name `scraper`), the two
module-level assignments/defs, and the names bound by the other imports. -/
def what_xkcd_defined_names : List Str :=
  ["SourceSansProSemibold".data, "Image".data, "ImageFont".data, "ImageDraw".data,
   "InkyWHAT".data, "scraper".data, "random".data, "os".data,
   "root".data, "choose_random_comic".data]

/-- A statement of the `__main__` block, reduced to the first global name it
resolves and the display-pipeline action it would perform. -/
structure PyStmt where
  name : Str
  action : Str

/-- The statements of the `__main__` block of `what_xkcd.py`, in order: the
very first, `xkdc_scraper.get_current_comic()`, resolves the global name
`xkdc_scraper`; then the comic is chosen, the display initialised, the image
resized, cropped, quantized, rotated and pushed. -/
def what_xkcd_main_stmts : List PyStmt :=
  [⟨"xkdc_scraper".data, "get_current_comic".data⟩,
   ⟨"choose_random_comic".data, "choose comic".data⟩,
   ⟨"InkyWHAT".data, "init display".data⟩,
   ⟨"inky_display".data, "set border".data⟩,
   ⟨"img".data, "resize".data⟩,
   ⟨"img".data, "crop".data⟩,
   ⟨"img".data, "quantize".data⟩,
   ⟨"img".data, "rotate".data⟩,
   ⟨"inky_display".data, "set image".data⟩,
   ⟨"inky_display".data, "show".data⟩]

/-- Result of running a straight-line Python block: either a `NameError` on
an unresolved global (with the actions performed before it), or normal
completion. -/
inductive RunOutcome where
  | nameError (n : Str) (performed : List Str)
  | completed (performed : List Str)
deriving DecidableEq

/-- Run statements in order against an environment of defined names,
extending the environment is not modelled (no statement in the block binds a
new global before the failing lookup); the first unresolved name raises
`NameError` and aborts the block. -/
def run_block (env : List Str) : List PyStmt → List Str → RunOutcome
  | [], acc => .completed acc.reverse
  | s :: rest, acc =>
    if env.contains s.name then run_block env rest (s.action :: acc)
    else .nameError s.name acc.reverse

/-- Executing the `__main__` block of `what_xkcd.py`. -/
def what_xkcd_main : RunOutcome :=
  run_block what_xkcd_defined_names what_xkcd_main_stmts []

/-! ### Concrete worlds and filesystems used to instantiate the theorems -/

/-- A world whose server answers every GET with `304 Not Modified`. -/
def w_status304 : World :=
  { net := fun _ => .ok ⟨304, [], []⟩
    parse := fun _ => ⟨none, none, none⟩
    write_ok := fun _ => true }

/-- A world where fetching succeeds (HTTP 200) but the parsed page has none
of the three expected elements, so extraction fails. -/
def w_extract_fail : World :=
  { net := fun _ => .ok ⟨200, [], []⟩
    parse := fun _ => ⟨none, none, none⟩
    write_ok := fun _ => true }

/-- A world where the comic page parses fully but every image GET (indeed
every GET) yields HTTP 404, so the image download fails. -/
def w_download404 : World :=
  { net := fun url => if url = "https://imgs.xkcd.com/comics/a.png".data
      then .ok ⟨404, [], []⟩ else .ok ⟨200, [], []⟩
    parse := fun _ =>
      ⟨some "//imgs.xkcd.com/comics/a.png".data, some "Test Comic".data,
        some "A transcript".data⟩
    write_ok := fun _ => true }

/-- A fully successful world: the page parses into a complete comic record,
the image GET returns bytes `[7, 8, 9]`, and all writes succeed. -/
def w_success : World :=
  { net := fun _ => .ok ⟨200, [], [7, 8, 9]⟩
    parse := fun _ =>
      ⟨some "//imgs.xkcd.com/comics/a.png".data, some "Test Comic".data,
        some "A transcript".data⟩
    write_ok := fun _ => true }

/-- A filesystem with the three README-example date directories, one PNG in
each, and an existing README. -/
def fs_three_dates : FS :=
  { data_dir_present := true
    subdirs := ["2024-01-05".data, "2024-01-20".data, "2023-12-31".data]
    pngs := fun _ => ["Test Comic.png".data]
    readme := "old readme".data }

/-- A filesystem whose most recent date directory contains no PNG files. -/
def fs_no_png : FS :=
  { data_dir_present := true
    subdirs := ["2024-01-05".data, "2024-01-20".data, "2023-12-31".data]
    pngs := fun _ => []
    readme := "old readme".data }

/-! ### Helper lemmas about `pySplit` -/

theorem pySplit_ne_nil (sep : Char) (l : Str) : pySplit sep l ≠ [] := by
  cases l with
  | nil => simp [pySplit]
  | cons c rest =>
    simp only [pySplit]
    cases pySplit sep rest with
    | nil => simp
    | cons hd tl =>
      by_cases h : c = sep <;> simp [h]

theorem pySplit_of_no_sep {sep : Char} {l : Str} (h : sep ∉ l) :
    pySplit sep l = [l] := by
  induction l with
  | nil => rfl
  | cons c rest ih =>
    have hc : c ≠ sep := fun e => h (e ▸ List.mem_cons_self c rest)
    have hrest : sep ∉ rest := fun m => h (List.mem_cons_of_mem c m)
    simp only [pySplit, ih hrest]
    simp [hc]

theorem pySplit_append (sep : Char) (xs ys : Str) :
    pySplit sep (xs ++ sep :: ys) = pySplit sep xs ++ pySplit sep ys := by
  induction xs with
  | nil =>
    simp only [List.nil_append, pySplit]
    cases he : pySplit sep ys with
    | nil => exact absurd he (pySplit_ne_nil sep ys)
    | cons hd tl => simp
  | cons c xs ih =>
    cases he : pySplit sep xs with
    | nil => exact absurd he (pySplit_ne_nil sep xs)
    | cons hd tl =>
      show pySplit sep (c :: (xs ++ sep :: ys)) = _
      simp only [pySplit]
      rw [ih, he]
      by_cases hc : c = sep <;> simp [hc]

theorem sep_not_mem_pySplit (sep : Char) (l : Str) :
    ∀ seg ∈ pySplit sep l, sep ∉ seg := by
  induction l with
  | nil => simp [pySplit]
  | cons c rest ih =>
    cases he : pySplit sep rest with
    | nil => exact absurd he (pySplit_ne_nil sep rest)
    | cons hd tl =>
      have hgoal : pySplit sep (c :: rest) =
          if c = sep then [] :: hd :: tl else (c :: hd) :: tl := by
        simp only [pySplit, he]
      rw [hgoal]
      by_cases hc : c = sep
      · rw [if_pos hc]
        intro seg hseg
        rcases List.mem_cons.mp hseg with h1 | h2
        · simp [h1]
        · exact ih seg (he ▸ h2)
      · rw [if_neg hc]
        intro seg hseg
        rcases List.mem_cons.mp hseg with h1 | h2
        · subst h1
          intro hmem
          rcases List.mem_cons.mp hmem with h3 | h4
          · exact hc h3.symm
          · exact ih hd (he ▸ List.mem_cons_self hd tl) h4
        · exact ih seg (he ▸ List.mem_cons_of_mem hd h2)

theorem getLastD_mem_of_ne_nil {α : Type} {l : List α} (h : l ≠ []) (d : α) :
    l.getLastD d ∈ l := by
  induction l generalizing d with
  | nil => exact absurd rfl h
  | cons a as ih =>
    cases as with
    | nil => simp
    | cons b bs => exact List.mem_cons_of_mem a (ih (by simp) a)

theorem sep_not_mem_get_file_extension (url : Str) :
    '.' ∉ get_file_extension url := by
  have hne := pySplit_ne_nil '.' url
  exact sep_not_mem_pySplit '.' url _ (getLastD_mem_of_ne_nil hne [])

theorem not_invalid_of_mem_sanitize {s : Str} {c : Char}
    (hc : c ∈ sanitize_filename s) : c ∉ INVALID_FILENAME_CHARS := by
  simp only [sanitize_filename, List.mem_filter, decide_not, Bool.not_eq_true',
    decide_eq_false_iff_not] at hc
  exact hc.2

theorem dot_not_mem_sanitize_filename (t : Str) : '.' ∉ sanitize_filename t :=
  fun h => absurd (by decide : '.' ∈ INVALID_FILENAME_CHARS)
    (not_invalid_of_mem_sanitize h)

/-! ### C2 and C4 -/

/-- C2: `sanitize_filename` returns a string with none of the denylisted
characters; on inputs containing none of them it is the identity; and it is
a character-stripping transformation preserving the order of the remaining
characters (its output is a sublist of its input). -/
theorem sanitize_filename_spec (s : Str) :
    (∀ c ∈ sanitize_filename s, c ∉ INVALID_FILENAME_CHARS) ∧
    ((∀ c ∈ s, c ∉ INVALID_FILENAME_CHARS) → sanitize_filename s = s) ∧
    (sanitize_filename s).Sublist s := by
  refine ⟨fun c hc => not_invalid_of_mem_sanitize hc, fun h => ?_,
    List.filter_sublist s⟩
  exact List.filter_eq_self.mpr fun a ha => decide_eq_true (h a ha)

/-- Witness for C2 at concrete inputs: a clean title is unchanged. -/
theorem sanitize_filename_spec_witness :
    sanitize_filename "Test Comic".data = "Test Comic".data :=
  (sanitize_filename_spec "Test Comic".data).2.1 (by decide)

/-- C4: `get_file_extension` returns the text after the final `.` of the
URL; for a URL with no `.` the result is the whole URL string. -/
theorem get_file_extension_spec (url : Str) :
    ('.' ∉ url → get_file_extension url = url) ∧
    (∀ a b, url = a ++ '.' :: b → '.' ∉ b → get_file_extension url = b) := by
  constructor
  · intro h
    simp [get_file_extension, pySplit_of_no_sep h]
  · intro a b hurl hb
    subst hurl
    rw [get_file_extension, pySplit_append, pySplit_of_no_sep hb,
      List.getLastD_concat]

/-- Witness for C4: a dotless URL yields itself; a normal image URL yields
the text after its final dot. -/
theorem get_file_extension_spec_witness :
    get_file_extension "no-dot-url".data = "no-dot-url".data ∧
    get_file_extension "https://imgs.xkcd.com/comics/test.png".data = "png".data :=
  ⟨(get_file_extension_spec "no-dot-url".data).1 (by decide),
   (get_file_extension_spec "https://imgs.xkcd.com/comics/test.png".data).2
     "https://imgs.xkcd.com/comics/test".data "png".data (by decide) (by decide)⟩

/-! ### C5, C6, C9 -/

/-- C5: a protocol-relative image URL (leading `//`) is normalized by
prefixing `https:` before the request is issued; any other URL is used
unmodified; and the GET that `download_image` issues is at the normalized
URL. -/
theorem download_image_url_normalization (u : Str) :
    (u.take 2 = ['/', '/'] → normalize_image_url u = "https:".data ++ u) ∧
    (u.take 2 ≠ ['/', '/'] → normalize_image_url u = u) ∧
    (∀ w : World, (download_image w u).2.head? = some (Ev.get (normalize_image_url u))) := by
  refine ⟨fun h => if_pos h, fun h => if_neg h, fun w => ?_⟩
  cases hn : w.net (normalize_image_url u) with
  | raised e => simp [download_image, hn]
  | ok r => by_cases hr : raise_for_status r <;> simp [download_image, hn, hr]

/-- Witness for C5: a concrete protocol-relative URL gains the scheme, a
concrete absolute URL is unchanged. -/
theorem download_image_url_normalization_witness :
    normalize_image_url "//imgs.xkcd.com/comics/a.png".data
      = "https://imgs.xkcd.com/comics/a.png".data ∧
    normalize_image_url "https://imgs.xkcd.com/comics/a.png".data
      = "https://imgs.xkcd.com/comics/a.png".data :=
  ⟨((download_image_url_normalization "//imgs.xkcd.com/comics/a.png".data).1
      (by decide)).trans (by decide),
   (download_image_url_normalization "https://imgs.xkcd.com/comics/a.png".data).2.1
      (by decide)⟩

/-- C6 (amended): `fetch_webpage` turns a network-level request error, and
any 4xx/5xx status (the statuses `raise_for_status` raises on), into `None`
plus a diagnostic line naming the URL and the underlying error; a response
with any other status — including non-2xx statuses such as 304 — is parsed
and returned. -/
theorem fetch_webpage_failure_spec (w : World) (url : Str) :
    (∀ e, w.net url = .raised e →
      fetch_webpage w url = (none, [.get url, .logFetchFail url (.netErr e)])) ∧
    (∀ r, w.net url = .ok r → 400 ≤ r.status → r.status < 600 →
      fetch_webpage w url = (none, [.get url, .logFetchFail url (.httpErr r.status)])) ∧
    (∀ r, w.net url = .ok r → ¬(400 ≤ r.status ∧ r.status < 600) →
      fetch_webpage w url = (some (w.parse r.text), [.get url])) := by
  refine ⟨fun e he => ?_, fun r hr h4 h6 => ?_, fun r hr hn => ?_⟩
  · simp [fetch_webpage, he]
  · simp [fetch_webpage, hr, raise_for_status, h4, h6]
  · simp [fetch_webpage, hr, raise_for_status, hn]

/-- Witness for C6 (amended): a connection error on a concrete URL yields
`None` with the diagnostic event, and a 404 yields `None` likewise. -/
theorem fetch_webpage_failure_spec_witness :
    fetch_webpage ⟨fun _ => .raised "connection refused".data,
        fun _ => ⟨none, none, none⟩, fun _ => true⟩ "https://xkcd.com/".data
      = (none, [.get "https://xkcd.com/".data,
          .logFetchFail "https://xkcd.com/".data (.netErr "connection refused".data)]) ∧
    fetch_webpage w_download404 "https://imgs.xkcd.com/comics/a.png".data
      = (none, [.get "https://imgs.xkcd.com/comics/a.png".data,
          .logFetchFail "https://imgs.xkcd.com/comics/a.png".data (.httpErr 404)]) :=
  ⟨(fetch_webpage_failure_spec _ _).1 "connection refused".data rfl,
   (fetch_webpage_failure_spec w_download404 _).2.1 ⟨404, [], []⟩ (by decide)
     (by decide) (by decide)⟩

/-- Counterexample to C6 as stated: a `304 Not Modified` response is a
non-2xx status, yet `fetch_webpage` returns a parsed document, not `None` —
`raise_for_status` only raises for statuses in `[400, 600)`. -/
theorem fetch_webpage_non2xx_counterexample :
    ¬(200 ≤ 304 ∧ 304 < 300) ∧
    (fetch_webpage w_status304 "https://xkcd.com/".data).1.isSome = true :=
  ⟨by decide, rfl⟩

/-- C9: running the `__main__` block of `what_xkcd.py` raises a `NameError`
on `xkdc_scraper` at its very first statement — the scraper module was
imported under the name `scraper` — so no display-pipeline action (choosing,
resizing, quantizing, pushing) is ever performed. -/
theorem what_xkcd_main_name_error :
    what_xkcd_main = .nameError "xkdc_scraper".data [] ∧
    "xkdc_scraper".data ∉ what_xkcd_defined_names ∧
    "scraper".data ∈ what_xkcd_defined_names :=
  ⟨rfl, by decide, by decide⟩

/-! ### Lexicographic comparison lemmas -/

theorem strCmp_swap (a : Str) : ∀ b, strCmp a b = (strCmp b a).swap := by
  induction a with
  | nil => intro b; cases b <;> rfl
  | cons x xs ih =>
    intro b
    cases b with
    | nil => rfl
    | cons y ys =>
      simp only [strCmp]
      by_cases h1 : x < y
      · simp [h1, lt_asymm h1, Ordering.swap]
      · by_cases h2 : y < x
        · simp [h1, h2, Ordering.swap]
        · simp [h1, h2, ih ys]

theorem strCmp_self (a : Str) : strCmp a a = .eq := by
  induction a with
  | nil => rfl
  | cons x xs ih => simp [strCmp, lt_irrefl, ih]

theorem pyLe_iff (a b : Str) : pyLe a b = true ↔ strCmp a b ≠ .gt := by
  cases h : strCmp a b <;> simp +decide [pyLe, h]

theorem pyLe_refl (a : Str) : pyLe a a = true := by
  simp [pyLe_iff, strCmp_self]

theorem strCmp_ne_gt_trans :
    ∀ a b c : Str, strCmp a b ≠ .gt → strCmp b c ≠ .gt → strCmp a c ≠ .gt := by
  intro a
  induction a with
  | nil => intro b c _ _; cases c <;> simp [strCmp]
  | cons x xs ih =>
    intro b c h1 h2
    cases b with
    | nil => simp [strCmp] at h1
    | cons y ys =>
      cases c with
      | nil => simp [strCmp] at h2
      | cons z zs =>
        simp only [strCmp] at h1 h2 ⊢
        rcases lt_trichotomy x y with hxy | hxy | hxy
        · rcases lt_trichotomy y z with hyz | hyz | hyz
          · simp [lt_trans hxy hyz]
          · subst hyz; simp [hxy]
          · rw [if_neg (asymm hyz), if_pos hyz] at h2; simp at h2
        · subst hxy
          rcases lt_trichotomy x z with hxz | hxz | hxz
          · simp [hxz]
          · subst hxz
            rw [if_neg (lt_irrefl x), if_neg (lt_irrefl x)] at h1 h2 ⊢
            exact ih ys zs h1 h2
          · rw [if_neg (asymm hxz), if_pos hxz] at h2; simp at h2
        · rw [if_neg (asymm hxy), if_pos hxy] at h1; simp at h1

theorem pyLe_trans (a b c : Str) (h1 : pyLe a b = true) (h2 : pyLe b c = true) :
    pyLe a c = true :=
  (pyLe_iff a c).mpr
    (strCmp_ne_gt_trans a b c ((pyLe_iff a b).mp h1) ((pyLe_iff b c).mp h2))

theorem pyLe_total (a b : Str) : (pyLe a b || pyLe b a) = true := by
  by_cases h : strCmp a b = .gt
  · have hba : strCmp b a = .lt := by
      have := strCmp_swap a b
      rw [h] at this
      cases hb : strCmp b a <;> rw [hb] at this <;> simp [Ordering.swap] at this ⊢
    have : pyLe b a = true := (pyLe_iff b a).mpr (by simp [hba])
    simp [this]
  · have : pyLe a b = true := (pyLe_iff a b).mpr h
    simp [this]

/-! ### C3 and C8 -/

/-- C3: whenever `get_most_recent_comic` returns a record, the date it
selected is one of the subdirectory names and is greatest among them in the
lexicographic string order; and on the README's example directories the
descending sort puts `2024-01-20` first. -/
theorem get_most_recent_comic_selects_max :
    (∀ fs : FS, ∀ date title ipath,
      get_most_recent_comic fs = some (date, title, ipath) →
      date ∈ fs.subdirs ∧ ∀ x ∈ fs.subdirs, pyLe x date = true) ∧
    (sorted_date_dirs ["2024-01-05".data, "2024-01-20".data, "2023-12-31".data]).head?
      = some "2024-01-20".data := by
  constructor
  · intro fs date title ipath h
    by_cases hd : fs.data_dir_present = false
    · simp [get_most_recent_comic, hd] at h
    cases hs : sorted_date_dirs fs.subdirs with
    | nil => simp [get_most_recent_comic, hd, hs] at h
    | cons d rest =>
      cases hp : fs.pngs d with
      | nil => simp [get_most_recent_comic, hd, hs, hp] at h
      | cons p ps =>
        have hb : fs.data_dir_present = true := by
          cases hfs : fs.data_dir_present
          · exact absurd hfs hd
          · rfl
        have h' : (⟨d, path_stem p,
            percent_escape_spaces ("data/".data ++ d ++ '/' :: p)⟩ : Str × Str × Str)
            = (date, title, ipath) := by
          apply Option.some.inj
          rw [← h]
          simp [get_most_recent_comic, hb, hs, hp]
        have hdd : d = date := congrArg (fun t => t.1) h'
        rw [← hdd]
        have hmem : d ∈ fs.subdirs := by
          have : d ∈ sorted_date_dirs fs.subdirs := by
            rw [hs]; exact List.mem_cons_self d rest
          exact List.mem_mergeSort.mp this
        refine ⟨hmem, fun x hx => ?_⟩
        have hsorted : List.Pairwise (fun a b => pyLe b a = true)
            (sorted_date_dirs fs.subdirs) := by
          exact List.sorted_mergeSort
            (fun a b c hab hbc => pyLe_trans c b a hbc hab)
            (fun a b => by have := pyLe_total b a; simpa [Bool.or_comm] using this)
            fs.subdirs
        rw [hs, List.pairwise_cons] at hsorted
        have hx' : x ∈ sorted_date_dirs fs.subdirs := List.mem_mergeSort.mpr hx
        rw [hs] at hx'
        rcases List.mem_cons.mp hx' with h1 | h2
        · rw [h1]; exact pyLe_refl d
        · exact hsorted.1 x h2
  · simp +decide [sorted_date_dirs, List.mergeSort, List.splitInTwo, List.merge,
      pyLe, strCmp]

/-- Witness for C3: on the concrete directory set `2024-01-05`,
`2024-01-20`, `2023-12-31` (each containing a PNG) the updater selects
`2024-01-20`, which is a member of the set and lexicographically greatest. -/
theorem get_most_recent_comic_selects_max_witness :
    "2024-01-20".data ∈ fs_three_dates.subdirs ∧
    ∀ x ∈ fs_three_dates.subdirs, pyLe x "2024-01-20".data = true := by
  have h : get_most_recent_comic fs_three_dates =
      some ("2024-01-20".data, "Test Comic".data,
        "data/2024-01-20/Test%20Comic.png".data) := by
    simp +decide [get_most_recent_comic, fs_three_dates, sorted_date_dirs,
      List.mergeSort, List.splitInTwo, List.merge, pyLe, strCmp, path_stem,
      py_rfind, percent_escape_spaces]
  exact get_most_recent_comic_selects_max.1 fs_three_dates _ _ _ h

/-- C8: if the `data` directory is missing, or has no subdirectories, or the
selected most-recent directory has no `*.png` match, `update_readme` logs
and performs no write: the filesystem (in particular `README.md`) is
unchanged. -/
theorem update_readme_no_write (fs : FS) :
    (fs.data_dir_present = false → update_readme fs = fs) ∧
    (fs.subdirs = [] → update_readme fs = fs) ∧
    (∀ d rest, sorted_date_dirs fs.subdirs = d :: rest → fs.pngs d = [] →
      update_readme fs = fs) := by
  refine ⟨fun h => ?_, fun h => ?_, fun d rest hs hp => ?_⟩
  · simp [update_readme, get_most_recent_comic, h]
  · have hs : sorted_date_dirs fs.subdirs = [] := by
      simp [sorted_date_dirs, h]
    by_cases hd : fs.data_dir_present = false
    · simp [update_readme, get_most_recent_comic, hd]
    · simp [update_readme, get_most_recent_comic, hd, hs]
  · by_cases hd : fs.data_dir_present = false
    · simp [update_readme, get_most_recent_comic, hd]
    · simp [update_readme, get_most_recent_comic, hd, hs, hp]

/-- Witness for C8: on a concrete tree whose most recent date directory has
no PNG, `update_readme` leaves the filesystem untouched. -/
theorem update_readme_no_write_witness :
    update_readme fs_no_png = fs_no_png := by
  apply (update_readme_no_write fs_no_png).2.2 "2024-01-20".data
    ["2024-01-05".data, "2023-12-31".data]
  · simp +decide [fs_no_png, sorted_date_dirs, List.mergeSort, List.splitInTwo,
      List.merge, pyLe, strCmp]
  · rfl

/-! ### Trace lemmas for the pipeline -/

theorem fetch_webpage_trace (w : World) (url : Str) :
    writesOf (fetch_webpage w url).2 = [] ∧ getsOf (fetch_webpage w url).2 = [url] := by
  cases hn : w.net url with
  | raised e => simp [fetch_webpage, hn, writesOf, getsOf]
  | ok r =>
    by_cases hr : raise_for_status r <;>
      simp [fetch_webpage, hn, hr, writesOf, getsOf]

theorem download_image_trace (w : World) (u : Str) :
    writesOf (download_image w u).2 = [] := by
  cases hn : w.net (normalize_image_url u) with
  | raised e => simp [download_image, hn, writesOf]
  | ok r =>
    by_cases hr : raise_for_status r <;>
      simp [download_image, hn, hr, writesOf]

theorem writesOf_append (a b : List Ev) :
    writesOf (a ++ b) = writesOf a ++ writesOf b :=
  List.filterMap_append a b _

theorem getsOf_append (a b : List Ev) :
    getsOf (a ++ b) = getsOf a ++ getsOf b :=
  List.filterMap_append a b _

/-! ### C1 and C7 -/

/-- C1: `get_comic` runs fetch → extract → sanitize-title → download →
save-image → save-transcript in strict sequence and returns `False` at the
first failing step: a fetch failure stops with no write; an extraction
failure stops with no write and with the page GET as the only request (no
image download); a download failure stops with zero files written (no orphan
transcript); an image-save failure stops with zero files written; a
transcript-save failure stops with only the image written; and on full
success both files are written, image first. -/
theorem get_comic_pipeline_spec (w : World) (comic_index : Nat) :
    (∀ evs, fetch_webpage w (XKCD_BASE_URL ++ (Nat.repr comic_index).data) = (none, evs) →
      get_comic w comic_index = (false, evs) ∧ writesOf evs = []) ∧
    (∀ soup evs,
      fetch_webpage w (XKCD_BASE_URL ++ (Nat.repr comic_index).data) = (some soup, evs) →
      extract_comic_data soup = none →
      get_comic w comic_index = (false, evs) ∧ writesOf evs = [] ∧
        getsOf evs = [XKCD_BASE_URL ++ (Nat.repr comic_index).data]) ∧
    (∀ soup evs comic_data evs2,
      fetch_webpage w (XKCD_BASE_URL ++ (Nat.repr comic_index).data) = (some soup, evs) →
      extract_comic_data soup = some comic_data →
      download_image w comic_data.image_url = (none, evs2) →
      get_comic w comic_index = (false, evs ++ evs2) ∧ writesOf (evs ++ evs2) = []) ∧
    (∀ soup evs comic_data b evs2,
      fetch_webpage w (XKCD_BASE_URL ++ (Nat.repr comic_index).data) = (some soup, evs) →
      extract_comic_data soup = some comic_data →
      download_image w comic_data.image_url = (some b, evs2) →
      w.write_ok (sanitize_filename comic_data.title ++
        '.' :: get_file_extension comic_data.image_url) = false →
      (get_comic w comic_index).1 = false ∧
        writesOf (get_comic w comic_index).2 = []) ∧
    (∀ soup evs comic_data b evs2,
      fetch_webpage w (XKCD_BASE_URL ++ (Nat.repr comic_index).data) = (some soup, evs) →
      extract_comic_data soup = some comic_data →
      download_image w comic_data.image_url = (some b, evs2) →
      w.write_ok (sanitize_filename comic_data.title ++
        '.' :: get_file_extension comic_data.image_url) = true →
      w.write_ok (sanitize_filename comic_data.title ++ "_transcript.txt".data) = false →
      (get_comic w comic_index).1 = false ∧
        writesOf (get_comic w comic_index).2 =
          [(sanitize_filename comic_data.title ++
              '.' :: get_file_extension comic_data.image_url, .image b)]) ∧
    (∀ soup evs comic_data b evs2,
      fetch_webpage w (XKCD_BASE_URL ++ (Nat.repr comic_index).data) = (some soup, evs) →
      extract_comic_data soup = some comic_data →
      download_image w comic_data.image_url = (some b, evs2) →
      w.write_ok (sanitize_filename comic_data.title ++
        '.' :: get_file_extension comic_data.image_url) = true →
      w.write_ok (sanitize_filename comic_data.title ++ "_transcript.txt".data) = true →
      (get_comic w comic_index).1 = true ∧
        writesOf (get_comic w comic_index).2 =
          [(sanitize_filename comic_data.title ++
              '.' :: get_file_extension comic_data.image_url, .image b),
           (sanitize_filename comic_data.title ++ "_transcript.txt".data,
              .text comic_data.transcript)]) := by
  have hfw := fetch_webpage_trace w (XKCD_BASE_URL ++ (Nat.repr comic_index).data)
  refine ⟨fun evs hf => ?_, fun soup evs hf he => ?_,
    fun soup evs cd evs2 hf he hdl => ?_,
    fun soup evs cd b evs2 hf he hdl hw => ?_,
    fun soup evs cd b evs2 hf he hdl hw1 hw2 => ?_,
    fun soup evs cd b evs2 hf he hdl hw1 hw2 => ?_⟩
  · rw [hf] at hfw
    exact ⟨by simp [get_comic, hf], hfw.1⟩
  · rw [hf] at hfw
    exact ⟨by simp [get_comic, hf, he], hfw.1, hfw.2⟩
  · rw [hf] at hfw
    have hdw := download_image_trace w cd.image_url
    rw [hdl] at hdw
    have hfw1 : writesOf evs = [] := hfw.1
    have hdw1 : writesOf evs2 = [] := hdw
    refine ⟨by simp [get_comic, hf, he, hdl], ?_⟩
    simp only [writesOf_append, hfw1, hdw1]
    rfl
  · rw [hf] at hfw
    have hdw := download_image_trace w cd.image_url
    rw [hdl] at hdw
    have hfw1 : writesOf evs = [] := hfw.1
    have hdw1 : writesOf evs2 = [] := hdw
    have hg : get_comic w comic_index =
        (false, evs ++ evs2 ++ [.logSaveImageFail
          (sanitize_filename cd.title ++ '.' :: get_file_extension cd.image_url)]) := by
      simp [get_comic, hf, he, hdl, save_image, hw]
    rw [hg]
    exact ⟨rfl, by simp only [writesOf_append, hfw1, hdw1]; rfl⟩
  · rw [hf] at hfw
    have hdw := download_image_trace w cd.image_url
    rw [hdl] at hdw
    have hfw1 : writesOf evs = [] := hfw.1
    have hdw1 : writesOf evs2 = [] := hdw
    have hg : get_comic w comic_index =
        (false, evs ++ evs2 ++
          [.writeFile (sanitize_filename cd.title ++
            '.' :: get_file_extension cd.image_url) (.image b)] ++
          [.logSaveTranscriptFail
            (sanitize_filename cd.title ++ "_transcript.txt".data)]) := by
      simp [get_comic, hf, he, hdl, save_image, save_transcript, hw1, hw2]
    rw [hg]
    exact ⟨rfl, by simp only [writesOf_append, hfw1, hdw1]; rfl⟩
  · rw [hf] at hfw
    have hdw := download_image_trace w cd.image_url
    rw [hdl] at hdw
    have hfw1 : writesOf evs = [] := hfw.1
    have hdw1 : writesOf evs2 = [] := hdw
    have hg : get_comic w comic_index =
        (true, evs ++ evs2 ++
          [.writeFile (sanitize_filename cd.title ++
            '.' :: get_file_extension cd.image_url) (.image b)] ++
          [.writeFile (sanitize_filename cd.title ++ "_transcript.txt".data)
            (.text cd.transcript)] ++ [.logOk cd.title]) := by
      simp [get_comic, hf, he, hdl, save_image, save_transcript, hw1, hw2]
    rw [hg]
    exact ⟨rfl, by simp only [writesOf_append, hfw1, hdw1]; rfl⟩

/-- Witness for C1: with a page that parses but yields no comic elements,
`get_comic` fails having issued only the page GET (no download, no write);
with a page that parses fully but whose image GET returns 404, `get_comic`
fails with zero files written. -/
theorem get_comic_pipeline_spec_witness :
    get_comic w_extract_fail 1 = (false,
      [Ev.get (XKCD_BASE_URL ++ (Nat.repr 1).data)]) ∧
    get_comic w_download404 1 = (false,
      [Ev.get (XKCD_BASE_URL ++ (Nat.repr 1).data),
       Ev.get "https://imgs.xkcd.com/comics/a.png".data,
       Ev.logDownloadFail "https://imgs.xkcd.com/comics/a.png".data (.httpErr 404)]) ∧
    writesOf (get_comic w_download404 1).2 = [] :=
  ⟨((get_comic_pipeline_spec w_extract_fail 1).2.1 ⟨none, none, none⟩
      [Ev.get (XKCD_BASE_URL ++ (Nat.repr 1).data)] rfl rfl).1,
   ((get_comic_pipeline_spec w_download404 1).2.2.1
      ⟨some "//imgs.xkcd.com/comics/a.png".data, some "Test Comic".data,
        some "A transcript".data⟩
      [Ev.get (XKCD_BASE_URL ++ (Nat.repr 1).data)]
      ⟨"//imgs.xkcd.com/comics/a.png".data, "Test Comic".data,
        "A transcript".data⟩
      [Ev.get "https://imgs.xkcd.com/comics/a.png".data,
       Ev.logDownloadFail "https://imgs.xkcd.com/comics/a.png".data (.httpErr 404)]
      rfl rfl rfl).1,
   ((get_comic_pipeline_spec w_download404 1).2.2.1
      ⟨some "//imgs.xkcd.com/comics/a.png".data, some "Test Comic".data,
        some "A transcript".data⟩
      [Ev.get (XKCD_BASE_URL ++ (Nat.repr 1).data)]
      ⟨"//imgs.xkcd.com/comics/a.png".data, "Test Comic".data,
        "A transcript".data⟩
      [Ev.get "https://imgs.xkcd.com/comics/a.png".data,
       Ev.logDownloadFail "https://imgs.xkcd.com/comics/a.png".data (.httpErr 404)]
      rfl rfl rfl).2⟩

/-- C7: `get_current_comic` runs the same fetch → extract → download → save
sequence as `get_comic` but never writes a transcript (no text file is ever
among its writes), and on a successful run the only file it creates is the
image `<sanitized_title>.<ext>`. -/
theorem get_current_comic_spec (w : World) :
    (∀ p s, (p, FileData.text s) ∉ writesOf (get_current_comic w).2) ∧
    ((get_current_comic w).1 = true →
      ∃ soup comic_data b,
        (fetch_webpage w XKCD_BASE_URL).1 = some soup ∧
        extract_comic_data soup = some comic_data ∧
        (download_image w comic_data.image_url).1 = some b ∧
        writesOf (get_current_comic w).2 =
          [(sanitize_filename comic_data.title ++
              '.' :: get_file_extension comic_data.image_url, .image b)]) := by
  rcases hf : fetch_webpage w XKCD_BASE_URL with ⟨os, evs⟩
  have hfw := fetch_webpage_trace w XKCD_BASE_URL
  rw [hf] at hfw
  have hfw1 : writesOf evs = [] := hfw.1
  cases os with
  | none =>
    have hg : get_current_comic w = (false, evs) := by simp [get_current_comic, hf]
    rw [hg]
    exact ⟨fun p s hmem => by simp [hfw1] at hmem, fun ht => by simp at ht⟩
  | some soup =>
    cases he : extract_comic_data soup with
    | none =>
      have hg : get_current_comic w = (false, evs) := by
        simp [get_current_comic, hf, he]
      rw [hg]
      exact ⟨fun p s hmem => by simp [hfw1] at hmem, fun ht => by simp at ht⟩
    | some cd =>
      rcases hdl : download_image w cd.image_url with ⟨ob, evs2⟩
      have hdw := download_image_trace w cd.image_url
      rw [hdl] at hdw
      have hdw1 : writesOf evs2 = [] := hdw
      cases ob with
      | none =>
        have hg : get_current_comic w = (false, evs ++ evs2) := by
          simp [get_current_comic, hf, he, hdl]
        rw [hg]
        refine ⟨fun p s hmem => ?_, fun ht => by simp at ht⟩
        rw [show writesOf ((false, evs ++ evs2) : Bool × List Ev).2 = [] from by
          simp only [writesOf_append, hfw1, hdw1]; rfl] at hmem
        simp at hmem
      | some b =>
        by_cases hw : w.write_ok (sanitize_filename cd.title ++
            '.' :: get_file_extension cd.image_url) = true
        · have hg : get_current_comic w = (true, evs ++ evs2 ++
              [.writeFile (sanitize_filename cd.title ++
                '.' :: get_file_extension cd.image_url) (.image b)] ++
              [.logOk cd.title]) := by
            simp [get_current_comic, hf, he, hdl, save_image, hw]
          have hww : writesOf (get_current_comic w).2 =
              [(sanitize_filename cd.title ++
                  '.' :: get_file_extension cd.image_url, FileData.image b)] := by
            rw [hg]
            simp only [writesOf_append, hfw1, hdw1]
            rfl
          refine ⟨fun p s hmem => ?_, fun _ => ⟨soup, cd, b, rfl, he, by rw [hdl], hww⟩⟩
          rw [hww] at hmem
          simp at hmem
        · have hg : get_current_comic w = (false, evs ++ evs2 ++
              [.logSaveImageFail (sanitize_filename cd.title ++
                '.' :: get_file_extension cd.image_url)]) := by
            simp [get_current_comic, hf, he, hdl, save_image, hw]
          have hww : writesOf (get_current_comic w).2 = [] := by
            rw [hg]
            simp only [writesOf_append, hfw1, hdw1]
            rfl
          refine ⟨fun p s hmem => by rw [hww] at hmem; simp at hmem,
            fun ht => ?_⟩
          rw [hg] at ht
          simp at ht

/-- Witness for C7: in a fully successful world the run returns `True` and
its only write is the image file `Test Comic.png` with the downloaded
bytes. -/
theorem get_current_comic_spec_witness :
    ∃ soup comic_data b,
      (fetch_webpage w_success XKCD_BASE_URL).1 = some soup ∧
      extract_comic_data soup = some comic_data ∧
      (download_image w_success comic_data.image_url).1 = some b ∧
      writesOf (get_current_comic w_success).2 =
        [(sanitize_filename comic_data.title ++
            '.' :: get_file_extension comic_data.image_url, .image b)] :=
  (get_current_comic_spec w_success).2 rfl

/-! ### C10 -/

theorem py_rfind_of_not_mem {c : Char} {s : Str} (h : c ∉ s) :
    py_rfind c s = -1 := by
  induction s with
  | nil => rfl
  | cons a rest ih =>
    have h1 : c ∉ rest := fun m => h (List.mem_cons_of_mem a m)
    have ha : ¬a = c := fun e => h (by rw [e]; exact List.mem_cons_self c rest)
    simp +decide [py_rfind, ih h1, ha]

theorem py_rfind_concat {c : Char} (s : Str) {e : Str} (he : c ∉ e) :
    py_rfind c (s ++ c :: e) = (s.length : Int) := by
  induction s with
  | nil => simp +decide [py_rfind, py_rfind_of_not_mem he]
  | cons a s ih =>
    simp only [List.cons_append, py_rfind, List.append_eq, ih]
    rw [if_pos (Int.ofNat_nonneg s.length)]
    rw [List.length_cons]
    push_cast
    ring

/-- Counterexample to C10 as stated: for the title `"..."` (which sanitizes
to the empty string) and image URL `"comic.png"`, the saved filename is
`".png"`, and CPython's `Path(...).stem` on it is `".png"`, not the
sanitized title `""` — the `0 < i` guard in `stem` keeps a leading-dot name
whole. -/
theorem filename_stem_counterexample :
    path_stem (sanitize_filename "...".data ++
        '.' :: get_file_extension "comic.png".data)
      ≠ sanitize_filename "...".data := by decide

/-- C10 (amended): the saved image filename
`sanitize_filename(title) + "." + get_file_extension(url)` always contains
exactly one `.`; and whenever the sanitized title and the extension are both
nonempty, `Path(...).stem` recovers the sanitized title exactly. -/
theorem filename_stem_roundtrip (title url : Str) :
    ((sanitize_filename title ++ '.' :: get_file_extension url).count '.' = 1) ∧
    (sanitize_filename title ≠ [] → get_file_extension url ≠ [] →
      path_stem (sanitize_filename title ++ '.' :: get_file_extension url)
        = sanitize_filename title) := by
  constructor
  · rw [List.count_append, List.count_cons_self,
      List.count_eq_zero.mpr (dot_not_mem_sanitize_filename title),
      List.count_eq_zero.mpr (sep_not_mem_get_file_extension url)]
  · intro hs he
    have hrf : py_rfind '.' (sanitize_filename title ++
        '.' :: get_file_extension url) = ((sanitize_filename title).length : Int) :=
      py_rfind_concat (sanitize_filename title) (sep_not_mem_get_file_extension url)
    have hlen : 0 < (sanitize_filename title).length := List.length_pos.mpr hs
    have helen : 0 < (get_file_extension url).length := List.length_pos.mpr he
    rw [path_stem, hrf, if_pos]
    · rw [Int.toNat_natCast]
      exact List.take_left _ _
    · constructor
      · exact_mod_cast hlen
      · rw [List.length_append, List.length_cons]
        push_cast
        omega

/-- Witness for C10 (amended): for the title `"Test Comic"` and a normal
PNG URL, the stem of the saved filename is the sanitized title. -/
theorem filename_stem_roundtrip_witness :
    path_stem (sanitize_filename "Test Comic".data ++
        '.' :: get_file_extension "https://imgs.xkcd.com/comics/test.png".data)
      = sanitize_filename "Test Comic".data :=
  (filename_stem_roundtrip "Test Comic".data
    "https://imgs.xkcd.com/comics/test.png".data).2 (by decide) (by decide)
